import Mathlib

/-
Verification of the `proompt` prompt-composition core
(`src/proompt/base/prompt.py`) against its specification.

The embedding models Python values that flow into the core as an inductive
type `PyVal`, Python exceptions as `PyExc`, and fallible operations as
`Except PyExc _` (or state-passing pairs where the claim is about state left
behind by a failed call).  The classes `Context`, `ToolContext` and
`BaseProvider` live in `proompt/base/context.py` and `proompt/base/provider.py`,
which are not part of the sources at hand; they are modelled from the spec
where noted.  The module-level flag `PYDANTIC_AI_AVAILABLE` is environment
dependent and is threaded through as an explicit `Bool` parameter `avail`.
-/

namespace Proompt

/-- Modelled from the spec: `Context` (the ContextContract) is defined in
`proompt/base/context.py`, which is absent from the sources.  Per the spec it
is an opaque object exposing `render() -> string`; it defines no custom
truthiness, so a `Context` instance is truthy as every default Python object
is (see `Context.truthy`). -/
structure Context where
  id : Nat
  renderText : String
deriving DecidableEq, Repr

/-- Modelled from the spec: default Python truthiness of a `Context` instance
(no `__bool__`/`__len__` override is specified), hence always `true`. -/
def Context.truthy (_ : Context) : Bool := true

/-- Modelled from the spec: `ToolContext` (the spec's ToolDescriptor) is
defined in `proompt/base/context.py`, absent from the sources.  Per the spec it
carries a `name`, a `description` and an opaque borrowed reference to the
underlying callable. -/
structure ToolContext where
  name : String
  description : String
  callableRef : Nat
deriving DecidableEq, Repr

/-- Modelled from the spec: `BaseProvider` (the ProviderContract) is defined in
`proompt/base/provider.py`, absent from the sources.  Per the spec it exposes
`name`, `description` and `fetch()`; an opaque `id` distinguishes instances. -/
structure BaseProvider where
  name : String
  description : String
  id : Nat
deriving DecidableEq, Repr

/-- Python exceptions raised by the modelled code paths. -/
inductive PyExc where
  | valueError (msg : String)
  | typeError (msg : String)
  | attributeError
deriving DecidableEq, Repr

/-- True exactly for the exception classes caught by the
`except (AttributeError, TypeError)` clause in `_normalize_tool`. -/
def PyExc.isAttrOrTypeError : PyExc → Bool
  | .attributeError => true
  | .typeError _ => true
  | .valueError _ => false

/-- Universe of Python values that reach the core's duck-typed entry points:
`None`, primitives, the core's own `ToolContext`/`Context`/`BaseProvider`
instances, a foreign single-tool object (pydantic-ai `Tool`: callable identity
plus `name` and `description`), an object whose `tools` attribute is a dict
mapping names to further values (pydantic-ai `FunctionToolset`), an object
with a non-dict `tools` attribute, and arbitrary other objects. -/
inductive PyVal where
  | pyNone
  | int (n : Int)
  | str (s : String)
  | toolContext (tc : ToolContext)
  | context (c : Context)
  | provider (p : BaseProvider)
  | pydanticTool (name description : String) (callableId : Nat)
  | toolsDictObj (entries : List (String × PyVal))
  | toolsNonDictObj (id : Nat)
  | obj (id : Nat)

/-- Result shape of `_normalize_tool` when it is not `None`:
a single `ToolContext` or a list of them. -/
inductive NormResult where
  | single (tc : ToolContext)
  | many (tcs : List ToolContext)
deriving DecidableEq, Repr

/-- Embedding of Python `isinstance(v, ToolContext)`. -/
def isinstanceToolContext : PyVal → Bool
  | .toolContext _ => true
  | _ => false

/-- Embedding of Python `isinstance(v, BaseProvider)`. -/
def isinstanceBaseProvider : PyVal → Bool
  | .provider _ => true
  | _ => false

/-- Embedding of Python `isinstance(v, Context)`. -/
def isinstanceContext : PyVal → Bool
  | .context _ => true
  | _ => false

/-- Embedding of Python `issubclass(v.__class__, Context)`: the class of a
value is `Context` or a subclass exactly when the value is a `Context`
instance. -/
def issubclassContext : PyVal → Bool
  | .context _ => true
  | _ => false

/-- Extracts the `Context` payload of a value known to be a `Context`
instance. -/
def PyVal.asContext : PyVal → Option Context
  | .context c => some c
  | _ => none

/-- Modelled from the spec: `ToolContext.from_pydantic_tool` is defined in
`proompt/base/context.py`, absent from the sources.  Per the spec it wraps a
foreign single-tool object (callable identity, `name`, `description`) into one
`ToolContext` with `name` and `description` copied from the foreign object's
fields; on any other input the attribute probing fails with `AttributeError`
(which the caller in `prompt.py` catches). -/
def ToolContext.from_pydantic_tool : PyVal → Except PyExc ToolContext
  | .pydanticTool n d c => .ok ⟨n, d, c⟩
  | _ => .error .attributeError

mutual

/-- Embedding of `PromptSection._normalize_tool` (prompt.py lines 83-133),
with the module flag `PYDANTIC_AI_AVAILABLE` passed as `avail`.  An
uncaught Python exception is an `Except.error`; a normal return of `None` is
`.ok none`. -/
def PromptSection._normalize_tool (avail : Bool) (tool : PyVal) :
    Except PyExc (Option NormResult) :=
  match tool with
  | .pyNone => .ok none
  | .toolContext tc => .ok (some (.single tc))
  | .toolsDictObj entries =>
    -- hasattr(tool, 'tools') holds and tools_attr is a dict
    if avail then
      match PromptSection.normalizeValues avail entries with
      | .error e => .error e
      | .ok result => .ok (if result = [] then none else some (.many result))
    else
      -- flag false: dict branch and pydantic-tool branch both skipped
      .ok none
  | other =>
    if avail then
      match ToolContext.from_pydantic_tool other with
      | .ok tc => .ok (some (.single tc))
      | .error e => if e.isAttrOrTypeError then .ok none else .error e
    else
      .ok none

/-- Embedding of the loop over `tools_attr.values()` inside `_normalize_tool`
(prompt.py lines 113-122): each value is normalized recursively, `None`
results are skipped, list results flattened, in iteration order. -/
def PromptSection.normalizeValues (avail : Bool) :
    List (String × PyVal) → Except PyExc (List ToolContext)
  | [] => .ok []
  | (_, v) :: rest =>
    match PromptSection._normalize_tool avail v with
    | .error e => .error e
    | .ok none => PromptSection.normalizeValues avail rest
    | .ok (some (.single tc)) =>
      match PromptSection.normalizeValues avail rest with
      | .error e => .error e
      | .ok tl => .ok (tc :: tl)
    | .ok (some (.many tcs)) =>
      match PromptSection.normalizeValues avail rest with
      | .error e => .error e
      | .ok tl => .ok (tcs ++ tl)

end

/-- State of a `PromptSection` instance (prompt.py lines 13-50): the private
`_context` slot (Python `None` is `Option.none`), the `providers` list —
which, as in the source, stores the constructor's positional arguments
verbatim as raw Python values — and the normalized `tools` list.  `className`
records `self.__class__.__name__`, used in error messages. -/
structure PromptSection where
  className : String
  _context : Option Context
  providers : List PyVal
  tools : List ToolContext

/-- Embedding of the Python test `t is None`. -/
def PyVal.isNone : PyVal → Bool
  | .pyNone => true
  | _ => false

/-- Embedding of the tool-normalization loop shared by `PromptSection.__init__`
(prompt.py lines 41-50) and `PromptSection.add_tools` (lines 70-81): `None`
arguments are skipped, each other argument is passed through
`_normalize_tool`, `None` results are skipped, list results extend `tools`,
single results are appended.  An uncaught exception from normalization
propagates. -/
def PromptSection.add_tools (avail : Bool) (s : PromptSection) :
    List PyVal → Except PyExc PromptSection
  | [] => .ok s
  | t :: rest =>
    if t.isNone then PromptSection.add_tools avail s rest
    else
      match PromptSection._normalize_tool avail t with
      | .error e => .error e
      | .ok none => PromptSection.add_tools avail s rest
      | .ok (some (.single tc)) =>
        PromptSection.add_tools avail { s with tools := s.tools ++ [tc] } rest
      | .ok (some (.many tcs)) =>
        PromptSection.add_tools avail { s with tools := s.tools ++ tcs } rest

/-- Embedding of `PromptSection.__init__` (prompt.py lines 31-50):
`self._context = context`; `self.providers = list(providers or [])` stores the
positional arguments verbatim (no filtering); `self.tools` starts empty and is
filled by the normalization loop over `tools or []`. -/
def PromptSection.init (avail : Bool) (className : String)
    (context : Option Context) (tools : Option (List PyVal))
    (providers : List PyVal) : Except PyExc PromptSection :=
  PromptSection.add_tools avail ⟨className, context, providers, []⟩ (tools.getD [])

/-- Python falsiness of the `_context` slot, as tested by
`if not self._context` in the getter: `None` is falsy, a `Context` instance is
falsy iff not truthy. -/
def pyFalsyOptContext : Option Context → Bool
  | none => true
  | some c => !(Context.truthy c)

/-- Embedding of the `context` property getter (prompt.py lines 52-57): raises
`ValueError` when the slot is falsy (in particular unset), otherwise returns
the stored value.  The spec names this error kind `ConfigurationError`. -/
def PromptSection.context (s : PromptSection) : Except PyExc (Option Context) :=
  if pyFalsyOptContext s._context then
    .error (.valueError ("Context is not set for " ++ s.className ++ "."))
  else
    .ok s._context

/-- Embedding of the `context` property setter (prompt.py lines 59-64), in
state-passing style so that the state after a failed assignment is explicit:
raises `TypeError` (the spec's `ConfigurationError`) and leaves the section
unchanged when the value is not a `Context` instance, otherwise stores it. -/
def PromptSection.setContext (s : PromptSection) (value : PyVal) :
    PromptSection × Option PyExc :=
  if !(isinstanceContext value) || (issubclassContext value == false) then
    (s, some (.typeError ("Context must be an instance of Context or its subclass for "
        ++ s.className ++ ".")))
  else
    ({ s with _context := PyVal.asContext value }, none)

/-- Embedding of `PromptSection.add_providers` (prompt.py lines 66-68):
extends `providers` with exactly the arguments satisfying
`isinstance(p, BaseProvider)`, in argument order. -/
def PromptSection.add_providers (s : PromptSection) (providers : List PyVal) :
    PromptSection :=
  { s with providers := s.providers ++ providers.filter isinstanceBaseProvider }

/-- A concrete (non-abstract) subclass instance of `PromptSection`: the state
together with the subclass's override of the abstract `render` method
(prompt.py lines 140-143). -/
structure ConcreteSection where
  base : PromptSection
  renderImpl : PromptSection → String

/-- Virtual dispatch of `render()` on a concrete section. -/
def ConcreteSection.render (cs : ConcreteSection) : String :=
  cs.renderImpl cs.base

/-- Embedding of `PromptSection.__str__` (prompt.py lines 145-147):
`return self.render()`. -/
def ConcreteSection.toStr (cs : ConcreteSection) : String :=
  cs.render

/-- A concrete subclass instance of `BasePrompt` (prompt.py lines 150-171):
the `sections` list together with the subclass's override of the abstract
`render` method. -/
structure ConcretePrompt where
  sections : List ConcreteSection
  renderImpl : List ConcreteSection → String

/-- Virtual dispatch of `render()` on a concrete prompt. -/
def ConcretePrompt.render (p : ConcretePrompt) : String :=
  p.renderImpl p.sections

/-- Embedding of `BasePrompt.__str__` (prompt.py lines 169-171):
`return self.render()`. -/
def ConcretePrompt.toStr (p : ConcretePrompt) : String :=
  p.render

/-! Helper lemmas shared by the claim theorems. -/

mutual

/-- Normalization never propagates an exception: every raised `AttributeError`
or `TypeError` from `from_pydantic_tool` is caught by the except clause. -/
theorem normalize_tool_isOk (avail : Bool) (v : PyVal) :
    ∃ r, PromptSection._normalize_tool avail v = Except.ok r := by
  match v with
  | .pyNone => exact ⟨none, rfl⟩
  | .toolContext tc => exact ⟨some (.single tc), rfl⟩
  | .toolsDictObj entries =>
    obtain ⟨r, hr⟩ := normalizeValues_isOk avail entries
    cases avail with
    | false => exact ⟨none, rfl⟩
    | true =>
      refine ⟨if r = [] then none else some (.many r), ?_⟩
      simp [PromptSection._normalize_tool, hr]
  | .int n => cases avail <;> exact ⟨none, rfl⟩
  | .str s => cases avail <;> exact ⟨none, rfl⟩
  | .context c => cases avail <;> exact ⟨none, rfl⟩
  | .provider p => cases avail <;> exact ⟨none, rfl⟩
  | .pydanticTool n d c =>
    cases avail with
    | false => exact ⟨none, rfl⟩
    | true => exact ⟨some (.single ⟨n, d, c⟩), rfl⟩
  | .toolsNonDictObj i => cases avail <;> exact ⟨none, rfl⟩
  | .obj i => cases avail <;> exact ⟨none, rfl⟩

/-- The inner loop over a tool collection's values never propagates an
exception. -/
theorem normalizeValues_isOk (avail : Bool) (l : List (String × PyVal)) :
    ∃ r, PromptSection.normalizeValues avail l = Except.ok r := by
  match l with
  | [] => exact ⟨[], rfl⟩
  | (k, v) :: rest =>
    obtain ⟨r1, hr1⟩ := normalize_tool_isOk avail v
    obtain ⟨r2, hr2⟩ := normalizeValues_isOk avail rest
    match r1 with
    | none => exact ⟨r2, by simp [PromptSection.normalizeValues, hr1, hr2]⟩
    | some (.single tc) =>
      exact ⟨tc :: r2, by simp [PromptSection.normalizeValues, hr1, hr2]⟩
    | some (.many tcs) =>
      exact ⟨tcs ++ r2, by simp [PromptSection.normalizeValues, hr1, hr2]⟩

end

/-- The add-tools loop never propagates an exception, for any starting
section. -/
theorem add_tools_isOk (avail : Bool) (ts : List PyVal) :
    ∀ s : PromptSection, ∃ s', PromptSection.add_tools avail s ts = Except.ok s' := by
  induction ts with
  | nil => exact fun s => ⟨s, rfl⟩
  | cons t rest ih =>
    intro s
    by_cases hn : t.isNone
    · simpa [PromptSection.add_tools, hn] using ih s
    · obtain ⟨r, hr⟩ := normalize_tool_isOk avail t
      match r with
      | none => simpa [PromptSection.add_tools, hn, hr] using ih s
      | some (.single tc) =>
        simpa [PromptSection.add_tools, hn, hr] using
          ih { s with tools := s.tools ++ [tc] }
      | some (.many tcs) =>
        simpa [PromptSection.add_tools, hn, hr] using
          ih { s with tools := s.tools ++ tcs }

/-- The add-tools loop only ever appends to `tools`: `className`, `_context`
and `providers` come out unchanged. -/
theorem add_tools_preserves (avail : Bool) (ts : List PyVal) :
    ∀ s s' : PromptSection, PromptSection.add_tools avail s ts = Except.ok s' →
      s'.className = s.className ∧ s'._context = s._context ∧
        s'.providers = s.providers := by
  induction ts with
  | nil =>
    intro s s' h
    simp only [PromptSection.add_tools, Except.ok.injEq] at h
    subst h
    exact ⟨rfl, rfl, rfl⟩
  | cons t rest ih =>
    intro s s' h
    by_cases hn : t.isNone
    · exact ih s s' (by simpa [PromptSection.add_tools, hn] using h)
    · obtain ⟨r, hr⟩ := normalize_tool_isOk avail t
      match r with
      | none => exact ih s s' (by simpa [PromptSection.add_tools, hn, hr] using h)
      | some (.single tc) =>
        exact ih { s with tools := s.tools ++ [tc] } s'
          (by simpa [PromptSection.add_tools, hn, hr] using h)
      | some (.many tcs) =>
        exact ih { s with tools := s.tools ++ tcs } s'
          (by simpa [PromptSection.add_tools, hn, hr] using h)

/-- With the pydantic-ai flag false, normalization of anything that is not a
`ToolContext` instance returns `None`. -/
theorem normalize_false_of_not_toolContext (v : PyVal)
    (h : isinstanceToolContext v = false) :
    PromptSection._normalize_tool false v = Except.ok none := by
  cases v <;> simp_all [isinstanceToolContext, PromptSection._normalize_tool]

/-! Claim theorems. -/

/-- C1: normalization is total — for every input value (None, arbitrary
unrelated objects, empty collections, under either value of the pydantic-ai
flag) `_normalize_tool` returns normally (`Except.ok`, never an uncaught
exception), and hence `add_tools` called with any argument list also returns
normally. -/
theorem C1_normalization_total :
    (∀ (avail : Bool) (v : PyVal),
        ∃ r, PromptSection._normalize_tool avail v = Except.ok r) ∧
    (∀ (avail : Bool) (s : PromptSection) (ts : List PyVal),
        ∃ s', PromptSection.add_tools avail s ts = Except.ok s') :=
  ⟨normalize_tool_isOk, fun avail s ts => add_tools_isOk avail ts s⟩

/-- C2: every `PromptSection` constructed without a context (the `_context`
slot left at `None`) raises on reading the `context` property — the
`ValueError` that the spec calls `ConfigurationError` — rather than returning
a default. -/
theorem C2_unset_context_raises (avail : Bool) (cn : String)
    (tools : Option (List PyVal)) (provs : List PyVal) (s : PromptSection)
    (h : PromptSection.init avail cn none tools provs = Except.ok s) :
    s.context
      = Except.error (PyExc.valueError ("Context is not set for " ++ cn ++ ".")) := by
  obtain ⟨hcn, hctx, -⟩ := add_tools_preserves avail (tools.getD []) _ s h
  simp [PromptSection.context, pyFalsyOptContext, hctx, hcn]

/-- Witness for C2 at a concrete section. -/
theorem C2_witness :
    (⟨"ReviewSection", none, [], []⟩ : PromptSection).context
      = Except.error (PyExc.valueError "Context is not set for ReviewSection.") :=
  C2_unset_context_raises true "ReviewSection" none []
    ⟨"ReviewSection", none, [], []⟩ rfl

/-- C3: assigning a Section's context with a value that is not a `Context`
instance raises the `TypeError` that the spec calls `ConfigurationError`, and
the section — in particular its stored context — is left unchanged by the
failed assignment. -/
theorem C3_bad_context_assignment (s : PromptSection) (v : PyVal)
    (h : isinstanceContext v = false) :
    s.setContext v =
      (s, some (PyExc.typeError
        ("Context must be an instance of Context or its subclass for "
          ++ s.className ++ "."))) := by
  simp [PromptSection.setContext, h]

/-- Witness for C3 at a concrete section and the non-Context value `42`. -/
theorem C3_witness :
    (⟨"S", none, [], []⟩ : PromptSection).setContext (.int 42)
      = (⟨"S", none, [], []⟩, some (PyExc.typeError
          "Context must be an instance of Context or its subclass for S.")) :=
  C3_bad_context_assignment ⟨"S", none, [], []⟩ (.int 42) rfl

/-- C4: identity short-circuit — for every value that is already a
`ToolContext`, `_normalize_tool` returns exactly that value (under either
flag value), not a copy or a re-wrapped descriptor. -/
theorem C4_identity_short_circuit (avail : Bool) (tc : ToolContext) :
    PromptSection._normalize_tool avail (.toolContext tc)
      = Except.ok (some (.single tc)) := rfl

/-- C5: collection flattening preserves order — a tool collection whose
`tools` dict holds `{a: toolA, b: toolB}` normalizes (with pydantic-ai
available) to the sequence of toolA's descriptor followed by toolB's, in the
dict's iteration order, and an empty collection normalizes to `None` without
error. -/
theorem C5_collection_flattening (a b n1 d1 n2 d2 : String) (c1 c2 : Nat) :
    PromptSection._normalize_tool true
        (.toolsDictObj [(a, .pydanticTool n1 d1 c1), (b, .pydanticTool n2 d2 c2)])
      = Except.ok (some (.many [⟨n1, d1, c1⟩, ⟨n2, d2, c2⟩])) ∧
    PromptSection._normalize_tool true (.toolsDictObj [])
      = Except.ok none :=
  ⟨rfl, rfl⟩

/-- C6: `add_providers` appends exactly the arguments satisfying
`isinstance(p, BaseProvider)`, in argument order, silently dropping the rest;
in particular `add_providers(42, "not a provider", validProvider)` adds
exactly the one valid provider. -/
theorem C6_add_providers_filters :
    (∀ (s : PromptSection) (args : List PyVal),
        (s.add_providers args).providers
          = s.providers ++ args.filter isinstanceBaseProvider) ∧
    (∀ (s : PromptSection) (p : BaseProvider),
        (s.add_providers [.int 42, .str "not a provider", .provider p]).providers
          = s.providers ++ [.provider p]) :=
  ⟨fun _ _ => rfl, fun _ _ => rfl⟩

/-- C7: after supplying a `Context` instance `c` — at construction or via the
setter — reading the `context` property returns exactly the stored `c` without
raising (and the setter itself raises nothing). -/
theorem C7_context_roundtrip (c : Context) :
    (∀ (avail : Bool) (cn : String) (tools : Option (List PyVal))
        (provs : List PyVal) (s : PromptSection),
        PromptSection.init avail cn (some c) tools provs = Except.ok s →
          s.context = Except.ok (some c)) ∧
    (∀ s : PromptSection,
        ((s.setContext (.context c)).1).context = Except.ok (some c) ∧
          (s.setContext (.context c)).2 = none) := by
  constructor
  · intro avail cn tools provs s h
    obtain ⟨-, hctx, -⟩ := add_tools_preserves avail (tools.getD []) _ s h
    simp [PromptSection.context, pyFalsyOptContext, Context.truthy, hctx]
  · intro s
    refine ⟨?_, ?_⟩ <;>
      simp [PromptSection.setContext, isinstanceContext, issubclassContext,
        PyVal.asContext, PromptSection.context, pyFalsyOptContext, Context.truthy]

/-- Witness for C7 at a concrete context and section. -/
theorem C7_witness :
    (⟨"S", some ⟨0, "Ctx: X"⟩, [], []⟩ : PromptSection).context
      = Except.ok (some ⟨0, "Ctx: X"⟩) :=
  (C7_context_roundtrip ⟨0, "Ctx: X"⟩).1 true "S" none []
    ⟨"S", some ⟨0, "Ctx: X"⟩, [], []⟩ rfl

/-- C8: when the pydantic-ai flag is false, `_normalize_tool` returns `None`
for every input that is not a `ToolContext` — including well-formed foreign
single-tool objects and non-empty tool collections — so `add_tools` leaves
the section unchanged for every such input. -/
theorem C8_flag_false_normalize_none (v : PyVal)
    (h : isinstanceToolContext v = false) :
    PromptSection._normalize_tool false v = Except.ok none ∧
      ∀ s : PromptSection, PromptSection.add_tools false s [v] = Except.ok s := by
  refine ⟨normalize_false_of_not_toolContext v h, fun s => ?_⟩
  by_cases hn : v.isNone
  · simp [PromptSection.add_tools, hn]
  · simp [PromptSection.add_tools, hn, normalize_false_of_not_toolContext v h]

/-- Witness for C8 at a well-formed foreign single-tool object. -/
theorem C8_witness :
    PromptSection._normalize_tool false (.pydanticTool "calc" "computes stuff" 7)
        = Except.ok none ∧
      PromptSection.add_tools false ⟨"S", none, [], []⟩
          [.pydanticTool "calc" "computes stuff" 7]
        = Except.ok ⟨"S", none, [], []⟩ := by
  have h := C8_flag_false_normalize_none (.pydanticTool "calc" "computes stuff" 7) rfl
  exact ⟨h.1, h.2 ⟨"S", none, [], []⟩⟩

/-- C9: the constructor does not filter its positional provider arguments —
whatever section `__init__` produces stores exactly the argument values
verbatim, in order, including `None` and values that fail the
ProviderContract. -/
theorem C9_init_providers_verbatim (avail : Bool) (cn : String)
    (ctx : Option Context) (tools : Option (List PyVal)) (provs : List PyVal)
    (s : PromptSection)
    (h : PromptSection.init avail cn ctx tools provs = Except.ok s) :
    s.providers = provs :=
  (add_tools_preserves avail (tools.getD []) _ s h).2.2

/-- Witness for C9 with `None` and a non-conforming value as providers. -/
theorem C9_witness :
    (⟨"S", none, [.pyNone, .int 42], []⟩ : PromptSection).providers
      = [.pyNone, .int 42] :=
  C9_init_providers_verbatim true "S" none none [.pyNone, .int 42]
    ⟨"S", none, [.pyNone, .int 42], []⟩ rfl

/-- C10: string conversion equals render — for every concrete section and
concrete prompt, `__str__` returns exactly what `render()` returns. -/
theorem C10_str_eq_render :
    (∀ cs : ConcreteSection, cs.toStr = cs.render) ∧
    (∀ p : ConcretePrompt, p.toStr = p.render) :=
  ⟨fun _ => rfl, fun _ => rfl⟩

end Proompt
